import Mathlib

/-!
# Sparse BLAS dispatch header and broadcast benchmark

A shallow embedding of

* `aten/src/ATen/mkl/SparseBlas.h`: the templates `create_csr`, `mv`, `trsv`
  and `trsm` with their asserting primary template and their explicit
  specializations for `float`, `double`, `c10::complex<float>` and
  `c10::complex<double>`;
* `benchmarks/cpp/nvfuser/broadcast.cpp`: `setupBroadcast`, which builds the
  fusion graph, and `NvFuserScheduler_Broadcast`, which drives the executor
  cache and the benchmark state.

Calls into code that lives outside these two files (the fusion IR, the
executor cache, the benchmark state, the CUDA runtime) are recorded as
statements of a graph or as events of a trace, in program order.
-/

/-- The ways in which a run of the embedded C++ code leaves what is described
here: an exception thrown by `TORCH_INTERNAL_ASSERT`, carrying its message,
the exception thrown by `value()` on an empty optional, and an operation on
which the C++ standard puts no requirement, after which nothing is said about
the run. -/
inductive Failure where
  | internalAssert (msg : String)
  | badOptionalAccess
  | undefinedBehavior
deriving DecidableEq, Repr

/-- Modelled from the spec: the macro `TORCH_INTERNAL_ASSERT` of
`c10/util/Exception.h`, which is not among the sources. When the condition is
false it throws ("an immediate hard assertion", "non-recoverable by design");
the message arguments are concatenated in order, as `c10::str` does. The text
that the macro itself puts around the message (the condition, file and line)
is left out. -/
def TORCH_INTERNAL_ASSERT (cond : Bool) (args : List String) : Except Failure Unit :=
  if cond then Except.ok () else Except.error (Failure.internalAssert (String.join args))

namespace SparseBlas

/-- The C++ type a template is instantiated at: the four types for which the
header declares explicit specializations, and any other type, told apart by
an identifier. -/
inductive ScalarType where
  | float
  | double
  | complexFloat
  | complexDouble
  | other (id : Nat)
deriving DecidableEq, Repr

/-- An address held by a C++ pointer argument. -/
abbrev Ptr := Nat

/-- The vendor integer type `MKL_INT`. -/
abbrev MKL_INT := Int

/-- The vendor enumeration `sparse_index_base_t`, by enumerator value. -/
abbrev sparse_index_base_t := Nat

/-- The vendor enumeration `sparse_operation_t`, by enumerator value. -/
abbrev sparse_operation_t := Nat

/-- The vendor enumeration `sparse_layout_t`, by enumerator value. -/
abbrev sparse_layout_t := Nat

/-- The vendor handle `sparse_matrix_t`. -/
abbrev sparse_matrix_t := Nat

/-- The vendor record `struct matrix_descr`: type, fill mode and diagonal
flag, each by enumerator value. -/
structure matrix_descr where
  type : Nat
  mode : Nat
  diag : Nat
deriving DecidableEq, Repr

/-- The parameter list `MKL_SPARSE_CREATE_CSR_ARGTYPES(scalar_t)`, in order. -/
structure CreateCsrArgs where
  A : Ptr
  indexing : sparse_index_base_t
  rows : MKL_INT
  cols : MKL_INT
  rows_start : Ptr
  rows_end : Ptr
  col_indx : Ptr
  values : Ptr
deriving DecidableEq, Repr

/-- The parameter list `MKL_SPARSE_MV_ARGTYPES(scalar_t)`, in order; `S` is
the type of the values of `scalar_t`. -/
structure MvArgs (S : Type) where
  operation : sparse_operation_t
  alpha : S
  A : sparse_matrix_t
  descr : matrix_descr
  x : Ptr
  beta : S
  y : Ptr
deriving DecidableEq, Repr

/-- The parameter list `MKL_SPARSE_TRSV_ARGTYPES(scalar_t)`, in order. -/
structure TrsvArgs (S : Type) where
  operation : sparse_operation_t
  alpha : S
  A : sparse_matrix_t
  descr : matrix_descr
  x : Ptr
  y : Ptr
deriving DecidableEq, Repr

/-- The parameter list `MKL_SPARSE_TRSM_ARGTYPES(scalar_t)`, in order. -/
structure TrsmArgs (S : Type) where
  operation : sparse_operation_t
  alpha : S
  A : sparse_matrix_t
  descr : matrix_descr
  layout : sparse_layout_t
  x : Ptr
  columns : MKL_INT
  ldx : MKL_INT
  y : Ptr
  ldy : MKL_INT
deriving DecidableEq, Repr

/-- Where a call `op<scalar_t>(args)` ends up when it does not throw: in one
of the explicit specializations declared by the header (whose bodies are
defined elsewhere), entered with the given arguments, or at the end of the
primary template's body. -/
inductive Resolved (S : Type) where
  | create_csr_spec (scalar_t : ScalarType) (args : CreateCsrArgs)
  | mv_spec (scalar_t : ScalarType) (args : MvArgs S)
  | trsv_spec (scalar_t : ScalarType) (args : TrsvArgs S)
  | trsm_spec (scalar_t : ScalarType) (args : TrsmArgs S)
  | primaryReturned
deriving DecidableEq, Repr

/-- The call `create_csr<scalar_t>(...)`: the four explicit specializations,
and the primary template for every other type. `typeidName` is
`typeid(scalar_t).name()`, whose text the implementation chooses. -/
def create_csr {S : Type} (typeidName : ScalarType → String) (scalar_t : ScalarType)
    (args : CreateCsrArgs) : Except Failure (Resolved S) :=
  match scalar_t with
  | ScalarType.float => pure (Resolved.create_csr_spec ScalarType.float args)
  | ScalarType.double => pure (Resolved.create_csr_spec ScalarType.double args)
  | ScalarType.complexFloat => pure (Resolved.create_csr_spec ScalarType.complexFloat args)
  | ScalarType.complexDouble => pure (Resolved.create_csr_spec ScalarType.complexDouble args)
  | ScalarType.other id => do
    TORCH_INTERNAL_ASSERT false
      ["at::mkl::sparse::create_csr: not implemented for ", typeidName (ScalarType.other id)]
    pure Resolved.primaryReturned

/-- The call `mv<scalar_t>(...)`. -/
def mv {S : Type} (typeidName : ScalarType → String) (scalar_t : ScalarType)
    (args : MvArgs S) : Except Failure (Resolved S) :=
  match scalar_t with
  | ScalarType.float => pure (Resolved.mv_spec ScalarType.float args)
  | ScalarType.double => pure (Resolved.mv_spec ScalarType.double args)
  | ScalarType.complexFloat => pure (Resolved.mv_spec ScalarType.complexFloat args)
  | ScalarType.complexDouble => pure (Resolved.mv_spec ScalarType.complexDouble args)
  | ScalarType.other id => do
    TORCH_INTERNAL_ASSERT false
      ["at::mkl::sparse::mv: not implemented for ", typeidName (ScalarType.other id)]
    pure Resolved.primaryReturned

/-- The call `trsv<scalar_t>(...)`. -/
def trsv {S : Type} (typeidName : ScalarType → String) (scalar_t : ScalarType)
    (args : TrsvArgs S) : Except Failure (Resolved S) :=
  match scalar_t with
  | ScalarType.float => pure (Resolved.trsv_spec ScalarType.float args)
  | ScalarType.double => pure (Resolved.trsv_spec ScalarType.double args)
  | ScalarType.complexFloat => pure (Resolved.trsv_spec ScalarType.complexFloat args)
  | ScalarType.complexDouble => pure (Resolved.trsv_spec ScalarType.complexDouble args)
  | ScalarType.other id => do
    TORCH_INTERNAL_ASSERT false
      ["at::mkl::sparse::trsv: not implemented for ", typeidName (ScalarType.other id)]
    pure Resolved.primaryReturned

/-- The call `trsm<scalar_t>(...)`. -/
def trsm {S : Type} (typeidName : ScalarType → String) (scalar_t : ScalarType)
    (args : TrsmArgs S) : Except Failure (Resolved S) :=
  match scalar_t with
  | ScalarType.float => pure (Resolved.trsm_spec ScalarType.float args)
  | ScalarType.double => pure (Resolved.trsm_spec ScalarType.double args)
  | ScalarType.complexFloat => pure (Resolved.trsm_spec ScalarType.complexFloat args)
  | ScalarType.complexDouble => pure (Resolved.trsm_spec ScalarType.complexDouble args)
  | ScalarType.other id => do
    TORCH_INTERNAL_ASSERT false
      ["at::mkl::sparse::trsm: not implemented for ", typeidName (ScalarType.other id)]
    pure Resolved.primaryReturned

end SparseBlas

namespace Broadcast

/-- Modelled from the spec: the fusion IR's enumeration `DataType` (declared in
`torch/csrc/jit/codegen/cuda/type.h`, not among the sources). The benchmark
names the enumerators `Half` ("reduced precision") and `Float`; every other
enumerator is told apart by its value. -/
inductive DataType where
  | Half
  | Float
  | Other (code : Nat)
deriving DecidableEq, Repr

/-- Modelled from the spec: a `TensorView` of the fusion IR (not among the
sources), as far as the benchmark depends on it: its name within the fusion,
its number of dimensions and its element type. -/
structure TensorView where
  name : Nat
  ndims : Nat
  dtype : DataType
deriving DecidableEq, Repr

/-- One call into the fusion IR made while a graph is built, with the tensor
view it returns where it returns one. -/
inductive Stmt where
  | makeContigTensor (out : TensorView)
  | addInput (tv : TensorView)
  | castOp (dtype : DataType) (inp out : TensorView)
  | broadcast (inp : TensorView) (is_broadcast_dim : List Bool) (out : TensorView)
  | add (lhs rhs out : TensorView)
  | addOutput (tv : TensorView)
deriving DecidableEq, Repr

/-- Modelled from the spec: the graph under construction (`Fusion`, not among
the sources): the calls made on it so far, in program order ("construct input
placeholders, apply optional precision-widening cast, apply broadcast, apply
add, apply optional precision-narrowing cast, register as graph output"). -/
structure Fusion where
  stmts : List Stmt
deriving DecidableEq, Repr

/-- A fusion on which nothing has been called yet. -/
def Fusion.fresh : Fusion := ⟨[]⟩

/-- The calls that create a tensor view. -/
def Stmt.definesVal : Stmt → Bool
  | Stmt.makeContigTensor _ => true
  | Stmt.castOp _ _ _ => true
  | Stmt.broadcast _ _ _ => true
  | Stmt.add _ _ _ => true
  | Stmt.addInput _ => false
  | Stmt.addOutput _ => false

/-- The number of tensor views created so far; the next one gets it as name. -/
def Fusion.numVals (fusion : Fusion) : Nat :=
  (fusion.stmts.filter Stmt.definesVal).length

/-- The registered inputs, in registration order. -/
def Fusion.inputs (fusion : Fusion) : List TensorView :=
  fusion.stmts.filterMap fun s =>
    match s with
    | Stmt.addInput tv => some tv
    | _ => none

/-- The registered outputs, in registration order. -/
def Fusion.outputs (fusion : Fusion) : List TensorView :=
  fusion.stmts.filterMap fun s =>
    match s with
    | Stmt.addOutput tv => some tv
    | _ => none

/-- The operations of the graph (casts, broadcasts, adds), in creation order. -/
def Fusion.exprs (fusion : Fusion) : List Stmt :=
  fusion.stmts.filter fun s =>
    match s with
    | Stmt.castOp _ _ _ => true
    | Stmt.broadcast _ _ _ => true
    | Stmt.add _ _ _ => true
    | _ => false

/-- The casts of the graph, in creation order. -/
def Fusion.casts (fusion : Fusion) : List Stmt :=
  fusion.stmts.filter fun s =>
    match s with
    | Stmt.castOp _ _ _ => true
    | _ => false

/-- The patterns handed to `broadcast`, in call order. -/
def Fusion.broadcastPatterns (fusion : Fusion) : List (List Bool) :=
  fusion.stmts.filterMap fun s =>
    match s with
    | Stmt.broadcast _ pattern _ => some pattern
    | _ => none

/-- Modelled from the spec: `makeContigTensor(ndims, dtype)` of the
benchmarks' `utils.h` (not among the sources), an "input placeholder" with
the given number of dimensions and element type, created in the fusion. -/
def makeContigTensor (fusion : Fusion) (ndims : Nat) (dtype : DataType) : TensorView × Fusion :=
  let out : TensorView := ⟨fusion.numVals, ndims, dtype⟩
  (out, ⟨fusion.stmts ++ [Stmt.makeContigTensor out]⟩)

/-- Modelled from the spec: `Fusion::addInput` (not among the sources), which
registers a tensor view as the next input of the graph. -/
def Fusion.addInput (fusion : Fusion) (tv : TensorView) : Fusion :=
  ⟨fusion.stmts ++ [Stmt.addInput tv]⟩

/-- Modelled from the spec: `Fusion::addOutput` (not among the sources), which
registers a tensor view as the next output of the graph ("register as graph
output"). -/
def Fusion.addOutput (fusion : Fusion) (tv : TensorView) : Fusion :=
  ⟨fusion.stmts ++ [Stmt.addOutput tv]⟩

/-- Modelled from the spec: `castOp(dtype, tv)` of the fusion IR's `arith.h`
(not among the sources), the "precision-widening" or "precision-narrowing
cast": a new tensor view of the operand's rank with the requested element
type. -/
def castOp (fusion : Fusion) (dtype : DataType) (inp : TensorView) : TensorView × Fusion :=
  let out : TensorView := ⟨fusion.numVals, inp.ndims, dtype⟩
  (out, ⟨fusion.stmts ++ [Stmt.castOp dtype inp out]⟩)

/-- Modelled from the spec: `broadcast(tv, is_broadcast_dim)` of the fusion
IR's `arith.h` (not among the sources), "replication of a tensor along a
size-1 axis": a new tensor view with one axis per entry of the pattern and the
operand's element type. Checks that the function makes on its arguments are
not part of the model. -/
def broadcast (fusion : Fusion) (inp : TensorView) (is_broadcast_dim : List Bool) :
    TensorView × Fusion :=
  let out : TensorView := ⟨fusion.numVals, is_broadcast_dim.length, inp.dtype⟩
  (out, ⟨fusion.stmts ++ [Stmt.broadcast inp is_broadcast_dim out]⟩)

/-- Modelled from the spec: `add(lhs, rhs)` of the fusion IR's `arith.h` (not
among the sources), the "elementwise combination": a new tensor view with the
rank of the operands and the element type of the left operand (the benchmark
only adds operands of one element type). -/
def add (fusion : Fusion) (lhs rhs : TensorView) : TensorView × Fusion :=
  let out : TensorView := ⟨fusion.numVals, max lhs.ndims rhs.ndims, lhs.dtype⟩
  (out, ⟨fusion.stmts ++ [Stmt.add lhs rhs out]⟩)

/-- The assignment `v[i] = b` on a `std::vector<bool>`, with `i` an `int`.
`operator[]` checks nothing. For an index within `0 .. v.size() - 1` the
element is set. For any other index (a negative `int` converts to a huge
`size_type`) the access is out of bounds and the C++ standard puts no
requirement on the program: with the usual bit-packed storage a small index
lands in unused bits of the storage word and the program goes on with the
elements unchanged, other indices land outside the storage. Which of these
happens depends on the layout of the storage, so the outcome
`undefinedBehavior` only marks that from this access on nothing is said about
the run, neither that it stops nor what it goes on to do. -/
def vectorAssign (v : List Bool) (i : Int) (b : Bool) : Except Failure (List Bool) :=
  if 0 ≤ i ∧ i < v.length then pure (v.set i.toNat b) else throw Failure.undefinedBehavior

/-- The function `setupBroadcast(fusion, dtype, bcast_axis)`. -/
def setupBroadcast (fusion : Fusion) (dtype : DataType) (bcast_axis : Int) :
    Except Failure Fusion := do
  let is_fp16 : Bool := decide (dtype = DataType.Half)
  let (tv0, fusion) := makeContigTensor fusion 2 dtype
  let (tv1, fusion) := makeContigTensor fusion 1 dtype
  let fusion := fusion.addInput tv0
  let fusion := fusion.addInput tv1
  let bcast_pattern : List Bool := List.replicate 2 false
  let bcast_pattern ← vectorAssign bcast_pattern bcast_axis true
  let (tv0, tv1, fusion) :=
    if is_fp16 then
      let (tv0, fusion) := castOp fusion DataType.Float tv0
      let (tv1, fusion) := castOp fusion DataType.Float tv1
      (tv0, tv1, fusion)
    else (tv0, tv1, fusion)
  let (tv2, fusion) := broadcast fusion tv1 bcast_pattern
  let (tv3, fusion) := add fusion tv0 tv2
  let (tv3, fusion) :=
    if is_fp16 then castOp fusion DataType.Half tv3 else (tv3, fusion)
  pure (fusion.addOutput tv3)

/-- Modelled from the spec: an `at::Tensor` as far as the benchmark depends on
it, its sizes and element type (the values are random). -/
structure Tensor where
  sizes : List Int
  dtype : DataType
deriving DecidableEq, Repr

/-- Modelled from the spec: `at::randn(sizes, options)`, a tensor of the given
sizes; `options` carries the element type (`data_type_to_aten(dtype)`) and the
device. -/
def randn (sizes : List Int) (dtype : DataType) : Tensor := ⟨sizes, dtype⟩

/-- The number of elements of a tensor of the given sizes. -/
def numel (sizes : List Int) : Int := sizes.foldl (fun acc s => acc * s) 1

/-- The scheduler parameters of the executor info; only their string form
(`toString`) is used. -/
structure PointwiseParams where
  text : String
deriving DecidableEq, Repr

/-- The launch constraints of the executor info; only their string form
(`toString`) is used. -/
structure LaunchParams where
  text : String
deriving DecidableEq, Repr

/-- The two optional fields that the benchmark reads from the result of
`getMostRecentExecutorInfo()`. -/
structure ExecutorLogEntry where
  pointwise_params : Option PointwiseParams
  launch_constraints : Option LaunchParams
deriving DecidableEq, Repr

/-- Modelled from the spec: the answers of the "external compiling executor"
(`FusionExecutorCache` and its executor, not among the sources): the executor
info after the first run and the kernel time measured for each timed
iteration, in milliseconds. -/
structure FusionExecutorCache where
  compile_log : ExecutorLogEntry
  kernelTimeMs : Nat → Nat

/-- Modelled from the spec: the `benchmark::State` handed in by the "benchmark
runner": the arguments `range(i)` of the case, and the number of times its
range-for loop runs the body, which is also what `iterations()` returns after
the loop. -/
structure State where
  range : Nat → Int
  max_iterations : Nat

/-- The calls that `NvFuserScheduler_Broadcast` makes into the code outside
the file, with their arguments. `SetIterationTime` carries the kernel time in
milliseconds that the call divides by `1000.0`. -/
inductive Event where
  | manual_seed (seed : Nat)
  | randn (result : Tensor)
  | profile (enable : Bool)
  | runFusionWithInputs (inputs : List Tensor)
  | getMostRecentExecutorInfo
  | SetLabel (label : String)
  | setMeasureKernelTimeFlag (flag : Bool)
  | cudaDeviceSynchronize
  | SetIterationTime (kernelTimeMs : Nat)
  | clearL2Cache
  | SetBytesProcessed (bytes : Int)
deriving DecidableEq, Repr

/-- The conversion of an integer to `int64_t`, and the result of an `int64_t`
operation whose exact value is the given integer: the value in
`-2^63 .. 2^63 - 1` that is congruent to it modulo `2^64`. -/
def int64_t (x : Int) : Int := (x + 2 ^ 63) % 2 ^ 64 - 2 ^ 63

/-- Multiplication of two `int64_t`. -/
def mulInt64 (a b : Int) : Int := int64_t (a * b)

/-- Addition of two `int64_t`. -/
def addInt64 (a b : Int) : Int := int64_t (a + b)

/-- The member `value()` of an optional, which throws on an empty optional. -/
def value {α : Type} : Option α → Except Failure α
  | some a => pure a
  | none => throw Failure.badOptionalAccess

/-- The body of the loop `for (auto _ : benchmark_state)`, run the given
number of times; iteration `k` reads the kernel time `kernelTimeMs k`. -/
def timedIterations (fusion_executor_cache : FusionExecutorCache) (t0 t1 : Tensor) :
    Nat → List Event
  | 0 => []
  | k + 1 => timedIterations fusion_executor_cache t0 t1 k ++
      [Event.runFusionWithInputs [t0, t1],
       Event.SetIterationTime (fusion_executor_cache.kernelTimeMs k),
       Event.clearL2Cache]

/-- The function `NvFuserScheduler_Broadcast(benchmark_state,
fusion_executor_cache, dtype, bcast_dim)`: the calls it makes, in order, and
whether it returns or throws. `dataTypeSize` is the function of that name of
the fusion IR (not among the sources). -/
def NvFuserScheduler_Broadcast (dataTypeSize : DataType → Nat) (benchmark_state : State)
    (fusion_executor_cache : FusionExecutorCache) (dtype : DataType) (bcast_dim : Int) :
    List Event × Except Failure Unit :=
  let bcast_size := benchmark_state.range 0
  let iter_size := benchmark_state.range 1
  let t0 := if bcast_dim ≠ 0 then randn [iter_size, bcast_size] dtype
    else randn [bcast_size, iter_size] dtype
  let t1 := randn [iter_size] dtype
  let warm := [Event.manual_seed 0, Event.randn t0, Event.randn t1, Event.profile true,
    Event.runFusionWithInputs [t0, t1], Event.getMostRecentExecutorInfo]
  let compile_log := fusion_executor_cache.compile_log
  let label : Except Failure String := do
    TORCH_INTERNAL_ASSERT compile_log.pointwise_params.isSome []
    TORCH_INTERNAL_ASSERT compile_log.launch_constraints.isSome []
    let params := (← value compile_log.pointwise_params).text
    let lparams := (← value compile_log.launch_constraints).text
    pure (params ++ lparams)
  match label with
  | Except.error e => (warm, Except.error e)
  | Except.ok label =>
    (warm ++
      [Event.SetLabel label, Event.profile false, Event.setMeasureKernelTimeFlag true,
       Event.cudaDeviceSynchronize] ++
      timedIterations fusion_executor_cache t0 t1 benchmark_state.max_iterations ++
      [Event.cudaDeviceSynchronize,
       Event.SetBytesProcessed
        (mulInt64
          (mulInt64 (int64_t benchmark_state.max_iterations)
            (addInt64 (mulInt64 (mulInt64 iter_size bcast_size) 2) iter_size))
          (int64_t (dataTypeSize dtype)))],
     Except.ok ())

/-- The tensor `t0` that the driver builds. -/
def inputT0 (benchmark_state : State) (dtype : DataType) (bcast_dim : Int) : Tensor :=
  if bcast_dim ≠ 0 then randn [benchmark_state.range 1, benchmark_state.range 0] dtype
  else randn [benchmark_state.range 0, benchmark_state.range 1] dtype

/-- The tensor `t1` that the driver builds. -/
def inputT1 (benchmark_state : State) (dtype : DataType) : Tensor :=
  randn [benchmark_state.range 1] dtype

/-- The calls of the driver up to and including the query of the executor
info. -/
def warmEvents (benchmark_state : State) (dtype : DataType) (bcast_dim : Int) : List Event :=
  [Event.manual_seed 0, Event.randn (inputT0 benchmark_state dtype bcast_dim),
   Event.randn (inputT1 benchmark_state dtype), Event.profile true,
   Event.runFusionWithInputs
     [inputT0 benchmark_state dtype bcast_dim, inputT1 benchmark_state dtype],
   Event.getMostRecentExecutorInfo]

/-- The exact integer `n * (iter_size * bcast_size * 2 + iter_size) * size`. -/
def exactBytes (dataTypeSize : DataType → Nat) (benchmark_state : State) (dtype : DataType) :
    Int :=
  (benchmark_state.max_iterations : Int) *
    (benchmark_state.range 1 * benchmark_state.range 0 * 2 + benchmark_state.range 1) *
    (dataTypeSize dtype : Int)

/-- What an observer of the driver's calls keeps track of: whether profiling
and the kernel-time flag are on, whether a timed execution has run since the
last cache clear, and counts of the executions of the fusion. An execution is
timed when it runs with the kernel-time flag on. -/
structure Monitor where
  profiling : Bool
  measuring : Bool
  uncleared : Bool
  executions : Nat
  timedExecutions : Nat
  timedWhileProfiling : Nat
  timedWithoutClear : Nat
deriving DecidableEq, Repr

/-- The observer before any call. -/
def Monitor.init : Monitor := ⟨false, false, false, 0, 0, 0, 0⟩

/-- The observer after one more call. -/
def Monitor.step (m : Monitor) : Event → Monitor
  | Event.profile enable => { m with profiling := enable }
  | Event.setMeasureKernelTimeFlag flag => { m with measuring := flag }
  | Event.clearL2Cache => { m with uncleared := false }
  | Event.runFusionWithInputs _ =>
    if m.measuring then
      { m with
        executions := m.executions + 1
        timedExecutions := m.timedExecutions + 1
        timedWhileProfiling := m.timedWhileProfiling + (if m.profiling then 1 else 0)
        timedWithoutClear := m.timedWithoutClear + (if m.uncleared then 1 else 0)
        uncleared := true }
    else { m with executions := m.executions + 1 }
  | _ => m

/-- The observer after a sequence of calls. -/
def monitor (events : List Event) : Monitor := events.foldl Monitor.step Monitor.init

/-- The benchmark case with `bcast_size = 8`, `iter_size = 160` and two timed
iterations. -/
def sampleState : State := ⟨fun i => if i = 0 then 8 else 160, 2⟩

/-- An executor cache whose info has both optional fields. -/
def sampleCache : FusionExecutorCache := ⟨⟨some ⟨"p"⟩, some ⟨"l"⟩⟩, fun k => k + 7⟩

/-- An executor cache whose info lacks the launch constraints. -/
def sampleCacheIncomplete : FusionExecutorCache := ⟨⟨some ⟨"p"⟩, none⟩, fun k => k + 7⟩

/-- The values passed to `SetBytesProcessed`, in call order. -/
def bytesReported (events : List Event) : List Int :=
  events.filterMap fun e =>
    match e with
    | Event.SetBytesProcessed bytes => some bytes
    | _ => none

/-- The labels passed to `SetLabel`, in call order. -/
def labelsSet (events : List Event) : List String :=
  events.filterMap fun e =>
    match e with
    | Event.SetLabel label => some label
    | _ => none

/-- The input lists of the executions of the fusion, in call order. -/
def executions (events : List Event) : List (List Tensor) :=
  events.filterMap fun e =>
    match e with
    | Event.runFusionWithInputs inputs => some inputs
    | _ => none

/-- Modelled from the spec: the sizes of a broadcast's result ("replication of
a tensor along a size-1 axis"): extent 1 on each axis that the pattern flags,
the operand's extents, in order, on the others. -/
def broadcastSizes : List Int → List Bool → Option (List Int)
  | [], [] => some []
  | _ :: _, [] => none
  | sizes, true :: flags => (broadcastSizes sizes flags).map fun r => 1 :: r
  | [], false :: _ => none
  | s :: sizes, false :: flags => (broadcastSizes sizes flags).map fun r => s :: r

/-- Modelled from the spec: the sizes of an elementwise combination of two
tensors of one rank: on each axis the extents agree or one of them is 1 (the
"size-1 axis" that is replicated "to match another tensor's shape"). -/
def addSizes : List Int → List Int → Option (List Int)
  | [], [] => some []
  | a :: as, b :: bs =>
    if b = 1 then (addSizes as bs).map fun r => a :: r
    else if a = 1 then (addSizes as bs).map fun r => b :: r
    else if a = b then (addSizes as bs).map fun r => a :: r
    else none
  | _, _ => none

/-- The state of a run of the graph on concrete tensors, as far as sizes go:
the sizes bound to tensor views by name, the concrete inputs not yet bound,
and the sizes of the outputs so far. -/
structure SizeState where
  bound : List (Nat × List Int)
  pending : List (List Int)
  outputs : List (List Int)
deriving DecidableEq, Repr

/-- Modelled from the spec: what one statement of the graph does to the sizes
when the "compiled graph" runs on "concrete input tensors". An input takes the
next concrete tensor, which must have its rank; a cast keeps the sizes. -/
def inferStmt (st : SizeState) : Stmt → Option SizeState
  | Stmt.makeContigTensor _ => some st
  | Stmt.addInput tv =>
    match st.pending with
    | [] => none
    | sizes :: rest =>
      if sizes.length = tv.ndims then some ⟨(tv.name, sizes) :: st.bound, rest, st.outputs⟩
      else none
  | Stmt.castOp _ inp out =>
    (st.bound.lookup inp.name).map fun sizes => ⟨(out.name, sizes) :: st.bound, st.pending, st.outputs⟩
  | Stmt.broadcast inp is_broadcast_dim out =>
    ((st.bound.lookup inp.name).bind fun sizes => broadcastSizes sizes is_broadcast_dim).map
      fun sizes => ⟨(out.name, sizes) :: st.bound, st.pending, st.outputs⟩
  | Stmt.add lhs rhs out =>
    ((st.bound.lookup lhs.name).bind fun a =>
      (st.bound.lookup rhs.name).bind fun b => addSizes a b).map
      fun sizes => ⟨(out.name, sizes) :: st.bound, st.pending, st.outputs⟩
  | Stmt.addOutput tv =>
    (st.bound.lookup tv.name).map fun sizes => ⟨st.bound, st.pending, st.outputs ++ [sizes]⟩

/-- The statements of a graph run in order from a given state. -/
def inferStmts : SizeState → List Stmt → Option SizeState
  | st, [] => some st
  | st, s :: rest => (inferStmt st s).bind fun st1 => inferStmts st1 rest

/-- The sizes of the outputs of a graph run on inputs of the given sizes, or
`none` when the inputs do not fit the graph. -/
def Fusion.outputSizes (fusion : Fusion) (inputs : List (List Int)) : Option (List (List Int)) :=
  (inferStmts ⟨[], inputs, []⟩ fusion.stmts).bind fun st =>
    if st.pending = [] then some st.outputs else none

end Broadcast

/-! ## Sparse BLAS dispatch -/

namespace SparseBlas

/-- C2: for each of `create_csr`, `mv`, `trsv` and `trsm` and every scalar type
other than `float`, `double`, `complex<float>` and `complex<double>`, the
generic call never returns, whatever the arguments: it throws the internal
assertion whose message is "at::mkl::sparse::<operation>: not implemented for "
with that operation's name, followed by the type's name. -/
theorem unmapped_type_asserts {S : Type} (typeidName : ScalarType → String)
    (scalar_t : ScalarType)
    (hf : scalar_t ≠ ScalarType.float) (hd : scalar_t ≠ ScalarType.double)
    (hcf : scalar_t ≠ ScalarType.complexFloat) (hcd : scalar_t ≠ ScalarType.complexDouble)
    (a1 : CreateCsrArgs) (a2 : MvArgs S) (a3 : TrsvArgs S) (a4 : TrsmArgs S) :
    create_csr typeidName scalar_t a1 = (Except.error (Failure.internalAssert
        ("at::mkl::sparse::create_csr: not implemented for " ++ typeidName scalar_t)) :
        Except Failure (Resolved S)) ∧
    mv typeidName scalar_t a2 = Except.error (Failure.internalAssert
        ("at::mkl::sparse::mv: not implemented for " ++ typeidName scalar_t)) ∧
    trsv typeidName scalar_t a3 = Except.error (Failure.internalAssert
        ("at::mkl::sparse::trsv: not implemented for " ++ typeidName scalar_t)) ∧
    trsm typeidName scalar_t a4 = Except.error (Failure.internalAssert
        ("at::mkl::sparse::trsm: not implemented for " ++ typeidName scalar_t)) := by
  cases scalar_t with
  | float => exact absurd rfl hf
  | double => exact absurd rfl hd
  | complexFloat => exact absurd rfl hcf
  | complexDouble => exact absurd rfl hcd
  | other id =>
    simp [create_csr, mv, trsv, trsm, TORCH_INTERNAL_ASSERT, String.join, bind, Except.bind]

end SparseBlas

/-! ## Graph building -/

namespace Broadcast

/-- The graph that `setupBroadcast` builds for the reduced-precision type. -/
theorem setupBroadcast_half (fusion : Fusion) (bcast_axis : Int)
    (h : bcast_axis = 0 ∨ bcast_axis = 1) :
    setupBroadcast fusion DataType.Half bcast_axis = Except.ok ⟨fusion.stmts ++
      [Stmt.makeContigTensor ⟨fusion.numVals, 2, DataType.Half⟩,
       Stmt.makeContigTensor ⟨fusion.numVals + 1, 1, DataType.Half⟩,
       Stmt.addInput ⟨fusion.numVals, 2, DataType.Half⟩,
       Stmt.addInput ⟨fusion.numVals + 1, 1, DataType.Half⟩,
       Stmt.castOp DataType.Float ⟨fusion.numVals, 2, DataType.Half⟩
         ⟨fusion.numVals + 2, 2, DataType.Float⟩,
       Stmt.castOp DataType.Float ⟨fusion.numVals + 1, 1, DataType.Half⟩
         ⟨fusion.numVals + 3, 1, DataType.Float⟩,
       Stmt.broadcast ⟨fusion.numVals + 3, 1, DataType.Float⟩
         [decide (bcast_axis = 0), decide (bcast_axis = 1)]
         ⟨fusion.numVals + 4, 2, DataType.Float⟩,
       Stmt.add ⟨fusion.numVals + 2, 2, DataType.Float⟩ ⟨fusion.numVals + 4, 2, DataType.Float⟩
         ⟨fusion.numVals + 5, 2, DataType.Float⟩,
       Stmt.castOp DataType.Half ⟨fusion.numVals + 5, 2, DataType.Float⟩
         ⟨fusion.numVals + 6, 2, DataType.Half⟩,
       Stmt.addOutput ⟨fusion.numVals + 6, 2, DataType.Half⟩]⟩ := by
  rcases h with h | h <;> subst h <;>
    simp [setupBroadcast, makeContigTensor, Fusion.addInput, Fusion.addOutput, castOp,
      broadcast, add, vectorAssign, bind, Except.bind, pure, Except.pure, Fusion.numVals,
      List.filter_append, Stmt.definesVal]

/-- The graph that `setupBroadcast` builds for any other element type. -/
theorem setupBroadcast_full (fusion : Fusion) (dtype : DataType) (bcast_axis : Int)
    (hd : dtype ≠ DataType.Half) (h : bcast_axis = 0 ∨ bcast_axis = 1) :
    setupBroadcast fusion dtype bcast_axis = Except.ok ⟨fusion.stmts ++
      [Stmt.makeContigTensor ⟨fusion.numVals, 2, dtype⟩,
       Stmt.makeContigTensor ⟨fusion.numVals + 1, 1, dtype⟩,
       Stmt.addInput ⟨fusion.numVals, 2, dtype⟩,
       Stmt.addInput ⟨fusion.numVals + 1, 1, dtype⟩,
       Stmt.broadcast ⟨fusion.numVals + 1, 1, dtype⟩
         [decide (bcast_axis = 0), decide (bcast_axis = 1)]
         ⟨fusion.numVals + 2, 2, dtype⟩,
       Stmt.add ⟨fusion.numVals, 2, dtype⟩ ⟨fusion.numVals + 2, 2, dtype⟩
         ⟨fusion.numVals + 3, 2, dtype⟩,
       Stmt.addOutput ⟨fusion.numVals + 3, 2, dtype⟩]⟩ := by
  rcases h with h | h <;> subst h <;>
    simp [setupBroadcast, makeContigTensor, Fusion.addInput, Fusion.addOutput, castOp,
      broadcast, add, vectorAssign, bind, Except.bind, pure, Except.pure, Fusion.numVals,
      List.filter_append, Stmt.definesVal, hd]

/-- The one pattern that `setupBroadcast` hands to `broadcast`. -/
theorem setupBroadcast_pattern (fusion : Fusion) (dtype : DataType) (bcast_axis : Int)
    (h : bcast_axis = 0 ∨ bcast_axis = 1) :
    ∃ g, setupBroadcast fusion dtype bcast_axis = Except.ok g ∧
      g.broadcastPatterns =
        fusion.broadcastPatterns ++ [[decide (bcast_axis = 0), decide (bcast_axis = 1)]] := by
  by_cases hd : dtype = DataType.Half
  · subst hd
    refine ⟨_, setupBroadcast_half fusion bcast_axis h, ?_⟩
    simp [Fusion.broadcastPatterns, List.filterMap_append]
  · refine ⟨_, setupBroadcast_full fusion dtype bcast_axis hd h, ?_⟩
    simp [Fusion.broadcastPatterns, List.filterMap_append]

/-- C4: for every `bcast_axis` in {0, 1} and every `dtype`, `setupBroadcast`
calls `broadcast` once, with a pattern of length 2 that is true at index
`bcast_axis` and false at the other index: `[true, false]` for axis 0 and
`[false, true]` for axis 1, each flagging exactly one axis. -/
theorem broadcast_pattern_flags_axis (fusion : Fusion) (dtype : DataType) (bcast_axis : Int)
    (h : bcast_axis = 0 ∨ bcast_axis = 1) :
    ∃ g pattern, setupBroadcast fusion dtype bcast_axis = Except.ok g ∧
      g.broadcastPatterns = fusion.broadcastPatterns ++ [pattern] ∧
      pattern.length = 2 ∧
      pattern[bcast_axis.toNat]? = some true ∧
      pattern[(1 - bcast_axis).toNat]? = some false ∧
      (bcast_axis = 0 → pattern = [true, false]) ∧
      (bcast_axis = 1 → pattern = [false, true]) ∧
      pattern.count true = 1 := by
  obtain ⟨g, hg, hpat⟩ := setupBroadcast_pattern fusion dtype bcast_axis h
  refine ⟨g, [decide (bcast_axis = 0), decide (bcast_axis = 1)], hg, hpat, rfl, ?_⟩
  rcases h with h | h <;> subst h <;> simp

/-- The sizes that the reduced-precision graph gives its output. -/
theorem outputSizes_half (bcast_axis : Int) (h : bcast_axis = 0 ∨ bcast_axis = 1)
    (gHalf g : Fusion) (dtype : DataType) (hd : dtype ≠ DataType.Half)
    (hHalf : setupBroadcast Fusion.fresh DataType.Half bcast_axis = Except.ok gHalf)
    (hg : setupBroadcast Fusion.fresh dtype bcast_axis = Except.ok g)
    (inputs : List (List Int)) :
    gHalf.outputSizes inputs = g.outputSizes inputs := by
  rw [setupBroadcast_half _ _ h] at hHalf
  rw [setupBroadcast_full _ _ _ hd h] at hg
  injection hHalf with hHalf
  injection hg with hg
  subst hHalf hg
  rcases inputs with _ | ⟨a, _ | ⟨b, rest⟩⟩
  · simp [Fusion.outputSizes, Fusion.fresh, inferStmts, inferStmt, Fusion.numVals]
  · simp [Fusion.outputSizes, Fusion.fresh, inferStmts, inferStmt, Fusion.numVals]
    split <;> simp
  · by_cases ha : a.length = 2 <;> by_cases hb : b.length = 1 <;>
      simp [Fusion.outputSizes, Fusion.fresh, inferStmts, inferStmt, Fusion.numVals, ha, hb,
        List.lookup]
    cases hbs : broadcastSizes b [decide (bcast_axis = 0), decide (bcast_axis = 1)] with
    | none => simp
    | some r =>
      cases has : addSizes a r <;> simp [has, List.lookup]

/-- C5: for `dtype = Half` and every `bcast_axis` in {0, 1}, the graph built on
a fresh fusion is: the two placeholders, their registration as inputs, the
cast of each registered input to `Float`, the broadcast, the add, the cast of
the sum to `Half`, and the registration of that cast as the output. The output
has rank 2, as has the output of the graph built for the same axis and any
other element type, and the two graphs give their outputs the same sizes on
all inputs; for every element type other than `Half` the graph has no cast. -/
theorem half_path_casts_around_add (bcast_axis : Int) (h : bcast_axis = 0 ∨ bcast_axis = 1) :
    ∃ gHalf tv0 tv1 tv0f tv1f tv2 tv3 out pattern,
      setupBroadcast Fusion.fresh DataType.Half bcast_axis = Except.ok gHalf ∧
      gHalf.stmts =
        [Stmt.makeContigTensor tv0, Stmt.makeContigTensor tv1,
         Stmt.addInput tv0, Stmt.addInput tv1,
         Stmt.castOp DataType.Float tv0 tv0f, Stmt.castOp DataType.Float tv1 tv1f,
         Stmt.broadcast tv1f pattern tv2, Stmt.add tv0f tv2 tv3,
         Stmt.castOp DataType.Half tv3 out, Stmt.addOutput out] ∧
      tv0.dtype = DataType.Half ∧ tv1.dtype = DataType.Half ∧
      tv0f.dtype = DataType.Float ∧ tv1f.dtype = DataType.Float ∧
      tv3.dtype = DataType.Float ∧ out.dtype = DataType.Half ∧ out.ndims = 2 ∧
      ∀ dtype, dtype ≠ DataType.Half →
        ∃ g o, setupBroadcast Fusion.fresh dtype bcast_axis = Except.ok g ∧
          g.casts = [] ∧ g.outputs = [o] ∧ o.ndims = out.ndims ∧
          ∀ inputs, gHalf.outputSizes inputs = g.outputSizes inputs := by
  refine ⟨_, _, _, _, _, _, _, _, _, setupBroadcast_half Fusion.fresh bcast_axis h, rfl,
    rfl, rfl, rfl, rfl, rfl, rfl, rfl, ?_⟩
  intro dtype hd
  refine ⟨_, _, setupBroadcast_full Fusion.fresh dtype bcast_axis hd h, rfl, rfl, rfl, ?_⟩
  intro inputs
  exact outputSizes_half bcast_axis h _ _ dtype hd (setupBroadcast_half Fusion.fresh bcast_axis h)
    (setupBroadcast_full Fusion.fresh dtype bcast_axis hd h) inputs

/-- C8: for every `dtype` and every `bcast_axis` in {0, 1}, `setupBroadcast`
on a fresh fusion returns one graph, the same for any two fresh fusions: it has
two inputs, of rank 2 and rank 1 and of the requested element type, and one
output, of rank 2 and of the requested element type (`Half` on the
reduced-precision path, through the last cast). -/
theorem setupBroadcast_is_deterministic (dtype : DataType) (bcast_axis : Int)
    (h : bcast_axis = 0 ∨ bcast_axis = 1) :
    ∃ g tv0 tv1 out, setupBroadcast Fusion.fresh dtype bcast_axis = Except.ok g ∧
      (∀ fusion1 fusion2 : Fusion, fusion1.stmts = [] → fusion2.stmts = [] →
        setupBroadcast fusion1 dtype bcast_axis = Except.ok g ∧
        setupBroadcast fusion2 dtype bcast_axis = Except.ok g) ∧
      g.inputs = [tv0, tv1] ∧ tv0.ndims = 2 ∧ tv1.ndims = 1 ∧
      tv0.dtype = dtype ∧ tv1.dtype = dtype ∧
      g.outputs = [out] ∧ out.ndims = 2 ∧ out.dtype = dtype ∧
      (dtype = DataType.Half →
        g.exprs.getLast? = some (Stmt.castOp DataType.Half
          ⟨5, 2, DataType.Float⟩ out)) := by
  have hfresh : ∀ fusion : Fusion, fusion.stmts = [] → fusion = Fusion.fresh := by
    intro fusion hf
    cases fusion
    simp only [Fusion.fresh] at *
    simp [hf]
  by_cases hd : dtype = DataType.Half
  · subst hd
    refine ⟨_, _, _, _, setupBroadcast_half Fusion.fresh bcast_axis h, ?_, rfl, rfl, rfl, rfl,
      rfl, rfl, rfl, rfl, ?_⟩
    · intro fusion1 fusion2 h1 h2
      rw [hfresh fusion1 h1, hfresh fusion2 h2]
      exact ⟨setupBroadcast_half Fusion.fresh bcast_axis h,
        setupBroadcast_half Fusion.fresh bcast_axis h⟩
    · intro _
      rfl
  · refine ⟨_, _, _, _, setupBroadcast_full Fusion.fresh dtype bcast_axis hd h, ?_, rfl, rfl,
      rfl, rfl, rfl, rfl, rfl, rfl, ?_⟩
    · intro fusion1 fusion2 h1 h2
      rw [hfresh fusion1 h1, hfresh fusion2 h2]
      exact ⟨setupBroadcast_full Fusion.fresh dtype bcast_axis hd h,
        setupBroadcast_full Fusion.fresh dtype bcast_axis hd h⟩
    · intro hh
      exact absurd hh hd

end Broadcast

/-! ## The benchmark driver -/

namespace Broadcast

theorem int64_t_modEq (x : Int) : int64_t x ≡ x [ZMOD 2 ^ 64] := by
  have h : (x + 2 ^ 63) % 2 ^ 64 ≡ x + 2 ^ 63 [ZMOD 2 ^ 64] := Int.mod_modEq _ _
  have h2 := h.sub_right (2 ^ 63)
  simpa [int64_t] using h2

theorem int64_t_congr {x y : Int} (h : x ≡ y [ZMOD 2 ^ 64]) : int64_t x = int64_t y := by
  have h2 : (x + 2 ^ 63) % 2 ^ 64 = (y + 2 ^ 63) % 2 ^ 64 := h.add_right (2 ^ 63)
  unfold int64_t
  rw [h2]

/-- The value computed with `int64_t` operations is the exact integer
converted to `int64_t`. -/
theorem bytes_expression (n size : Nat) (iter_size bcast_size : Int) :
    mulInt64 (mulInt64 (int64_t n) (addInt64 (mulInt64 (mulInt64 iter_size bcast_size) 2)
      iter_size)) (int64_t size) =
    int64_t ((n : Int) * (iter_size * bcast_size * 2 + iter_size) * (size : Int)) := by
  unfold mulInt64 addInt64
  apply int64_t_congr
  have h1 : int64_t (int64_t (iter_size * bcast_size) * 2) + iter_size ≡
      iter_size * bcast_size * 2 + iter_size [ZMOD 2 ^ 64] :=
    ((int64_t_modEq _).trans ((int64_t_modEq _).mul_right 2)).add_right iter_size
  have h2 : int64_t (int64_t (int64_t (iter_size * bcast_size) * 2) + iter_size) ≡
      iter_size * bcast_size * 2 + iter_size [ZMOD 2 ^ 64] := (int64_t_modEq _).trans h1
  have h3 : int64_t (int64_t (n : Int) *
      int64_t (int64_t (int64_t (iter_size * bcast_size) * 2) + iter_size)) ≡
      (n : Int) * (iter_size * bcast_size * 2 + iter_size) [ZMOD 2 ^ 64] :=
    (int64_t_modEq _).trans ((int64_t_modEq _).mul h2)
  exact h3.mul (int64_t_modEq _)

/-- The run of the driver when the executor info has both optional fields. -/
theorem run_of_complete_info (dataTypeSize : DataType → Nat) (benchmark_state : State)
    (fusion_executor_cache : FusionExecutorCache) (dtype : DataType) (bcast_dim : Int)
    (p : PointwiseParams) (l : LaunchParams)
    (hp : fusion_executor_cache.compile_log.pointwise_params = some p)
    (hl : fusion_executor_cache.compile_log.launch_constraints = some l) :
    NvFuserScheduler_Broadcast dataTypeSize benchmark_state fusion_executor_cache dtype
      bcast_dim =
    (warmEvents benchmark_state dtype bcast_dim ++
      [Event.SetLabel (p.text ++ l.text), Event.profile false,
       Event.setMeasureKernelTimeFlag true, Event.cudaDeviceSynchronize] ++
      timedIterations fusion_executor_cache (inputT0 benchmark_state dtype bcast_dim)
        (inputT1 benchmark_state dtype) benchmark_state.max_iterations ++
      [Event.cudaDeviceSynchronize,
       Event.SetBytesProcessed (int64_t (exactBytes dataTypeSize benchmark_state dtype))],
     Except.ok ()) := by
  simp only [NvFuserScheduler_Broadcast, hp, hl, warmEvents, inputT0, inputT1, exactBytes,
    bytes_expression]
  rfl

/-- The run of the driver when the executor info lacks one of the optional
fields: it ends with the assertion, right after the query of the info. -/
theorem run_of_incomplete_info (dataTypeSize : DataType → Nat) (benchmark_state : State)
    (fusion_executor_cache : FusionExecutorCache) (dtype : DataType) (bcast_dim : Int)
    (h : fusion_executor_cache.compile_log.pointwise_params = none ∨
      fusion_executor_cache.compile_log.launch_constraints = none) :
    NvFuserScheduler_Broadcast dataTypeSize benchmark_state fusion_executor_cache dtype
      bcast_dim =
    (warmEvents benchmark_state dtype bcast_dim,
     Except.error (Failure.internalAssert "")) := by
  rcases h with h | h
  · simp only [NvFuserScheduler_Broadcast, h, warmEvents, inputT0, inputT1]
    rfl
  · cases hp : fusion_executor_cache.compile_log.pointwise_params with
    | none =>
      simp only [NvFuserScheduler_Broadcast, h, hp, warmEvents, inputT0, inputT1]
      rfl
    | some p =>
      simp only [NvFuserScheduler_Broadcast, h, hp, warmEvents, inputT0, inputT1]
      rfl

theorem labelsSet_timedIterations (fusion_executor_cache : FusionExecutorCache)
    (t0 t1 : Tensor) (k : Nat) :
    labelsSet (timedIterations fusion_executor_cache t0 t1 k) = [] := by
  induction k with
  | zero => rfl
  | succ k ih =>
    have := ih
    simp only [labelsSet] at this ⊢
    simp [timedIterations, this, List.filterMap_append]

theorem executions_timedIterations (fusion_executor_cache : FusionExecutorCache)
    (t0 t1 : Tensor) (k : Nat) :
    executions (timedIterations fusion_executor_cache t0 t1 k) = List.replicate k [t0, t1] := by
  induction k with
  | zero => rfl
  | succ k ih =>
    have := ih
    simp only [executions] at this ⊢
    simp [timedIterations, this, List.filterMap_append, List.replicate_succ']

/-- C9: if the executor info after the first execution lacks the pointwise
parameters or the launch constraints, the driver throws an internal assertion
right after querying the info: no label is set, the fusion has been executed
once, untimed, and is not executed again, and no bytes are reported. If both
are present, the driver returns and the one label it sets is the string form
of the pointwise parameters followed by that of the launch constraints. -/
theorem failed_assertion_stops_the_case (dataTypeSize : DataType → Nat)
    (benchmark_state : State) (fusion_executor_cache : FusionExecutorCache) (dtype : DataType)
    (bcast_dim : Int) :
    ((fusion_executor_cache.compile_log.pointwise_params = none ∨
        fusion_executor_cache.compile_log.launch_constraints = none) →
      (∃ msg, (NvFuserScheduler_Broadcast dataTypeSize benchmark_state fusion_executor_cache
        dtype bcast_dim).2 = Except.error (Failure.internalAssert msg)) ∧
      (NvFuserScheduler_Broadcast dataTypeSize benchmark_state fusion_executor_cache dtype
        bcast_dim).1.getLast? = some Event.getMostRecentExecutorInfo ∧
      labelsSet (NvFuserScheduler_Broadcast dataTypeSize benchmark_state
        fusion_executor_cache dtype bcast_dim).1 = [] ∧
      (monitor (NvFuserScheduler_Broadcast dataTypeSize benchmark_state
        fusion_executor_cache dtype bcast_dim).1).timedExecutions = 0 ∧
      (monitor (NvFuserScheduler_Broadcast dataTypeSize benchmark_state
        fusion_executor_cache dtype bcast_dim).1).executions = 1 ∧
      bytesReported (NvFuserScheduler_Broadcast dataTypeSize benchmark_state
        fusion_executor_cache dtype bcast_dim).1 = []) ∧
    (∀ (p : PointwiseParams) (l : LaunchParams),
      fusion_executor_cache.compile_log.pointwise_params = some p →
      fusion_executor_cache.compile_log.launch_constraints = some l →
      (NvFuserScheduler_Broadcast dataTypeSize benchmark_state fusion_executor_cache dtype
        bcast_dim).2 = Except.ok () ∧
      labelsSet (NvFuserScheduler_Broadcast dataTypeSize benchmark_state
        fusion_executor_cache dtype bcast_dim).1 = [p.text ++ l.text]) := by
  constructor
  · intro h
    rw [run_of_incomplete_info _ _ _ _ _ h]
    exact ⟨⟨_, rfl⟩, rfl, rfl, rfl, rfl, rfl⟩
  · intro p l hp hl
    rw [run_of_complete_info _ _ _ _ _ p l hp hl]
    refine ⟨rfl, ?_⟩
    have ht := labelsSet_timedIterations fusion_executor_cache
      (inputT0 benchmark_state dtype bcast_dim) (inputT1 benchmark_state dtype)
      benchmark_state.max_iterations
    simp only [labelsSet] at ht
    simp [labelsSet, warmEvents, List.filterMap_append, ht]

/-- Every execution of the fusion by the driver is on the inputs `t0`, `t1`
that it built, and there is a first one. -/
theorem executions_of_run (dataTypeSize : DataType → Nat) (benchmark_state : State)
    (fusion_executor_cache : FusionExecutorCache) (dtype : DataType) (bcast_dim : Int) :
    ∃ k, executions (NvFuserScheduler_Broadcast dataTypeSize benchmark_state
        fusion_executor_cache dtype bcast_dim).1 =
      List.replicate (k + 1)
        [inputT0 benchmark_state dtype bcast_dim, inputT1 benchmark_state dtype] := by
  by_cases h : fusion_executor_cache.compile_log.pointwise_params = none ∨
      fusion_executor_cache.compile_log.launch_constraints = none
  · refine ⟨0, ?_⟩
    rw [run_of_incomplete_info _ _ _ _ _ h]
    rfl
  · have hp : ∃ p, fusion_executor_cache.compile_log.pointwise_params = some p := by
      cases hp : fusion_executor_cache.compile_log.pointwise_params with
      | none => exact absurd (Or.inl hp) h
      | some p => exact ⟨p, rfl⟩
    have hl : ∃ l, fusion_executor_cache.compile_log.launch_constraints = some l := by
      cases hl : fusion_executor_cache.compile_log.launch_constraints with
      | none => exact absurd (Or.inr hl) h
      | some l => exact ⟨l, rfl⟩
    obtain ⟨p, hp⟩ := hp
    obtain ⟨l, hl⟩ := hl
    refine ⟨benchmark_state.max_iterations, ?_⟩
    rw [run_of_complete_info _ _ _ _ _ p l hp hl]
    have ht := executions_timedIterations fusion_executor_cache
      (inputT0 benchmark_state dtype bcast_dim) (inputT1 benchmark_state dtype)
      benchmark_state.max_iterations
    simp only [executions] at ht
    simp [executions, warmEvents, List.filterMap_append, ht, List.replicate_succ]

/-- The sizes that the graph of `setupBroadcast` gives its output on inputs of
sizes `t0` (two axes, extent `b` on the broadcast axis and `i` on the other)
and `[i]`. -/
theorem outputSizes_of_fitting_inputs (dtype : DataType) (bcast_dim : Int)
    (hdim : bcast_dim = 0 ∨ bcast_dim = 1) (b i : Int) (g : Fusion)
    (hg : setupBroadcast Fusion.fresh dtype bcast_dim = Except.ok g) :
    g.outputSizes [if bcast_dim ≠ 0 then [i, b] else [b, i], [i]] =
      some [if bcast_dim ≠ 0 then [i, b] else [b, i]] := by
  by_cases hd : dtype = DataType.Half
  · subst hd
    rw [setupBroadcast_half _ _ hdim] at hg
    injection hg with hg
    subst hg
    rcases hdim with h | h <;> subst h <;>
      simp [Fusion.outputSizes, Fusion.fresh, inferStmts, inferStmt, Fusion.numVals,
        List.lookup, broadcastSizes, addSizes]
  · rw [setupBroadcast_full _ _ _ hd hdim] at hg
    injection hg with hg
    subst hg
    rcases hdim with h | h <;> subst h <;>
      simp [Fusion.outputSizes, Fusion.fresh, inferStmts, inferStmt, Fusion.numVals,
        List.lookup, broadcastSizes, addSizes]

/-- C10: for `bcast_dim` 0 and 1 and positive `iter_size` and `bcast_size`, the
inputs `t0`, `t1` on which the driver executes the fusion fit the graph that
`setupBroadcast` builds for the same axis: `t0` has two axes, with extent
`bcast_size` on the axis that the broadcast pattern flags and `iter_size` on
the other, `t1` has the one extent `iter_size`, and the graph run on them gives
one output, of the sizes of `t0`. The element count of the bytes formula,
`iter_size * bcast_size * 2 + iter_size`, is `numel(t0) + numel(t1) +
numel(output)`, and none of the tensors is empty. -/
theorem inputs_fit_the_graph (dataTypeSize : DataType → Nat) (benchmark_state : State)
    (fusion_executor_cache : FusionExecutorCache) (dtype : DataType) (bcast_dim : Int)
    (hdim : bcast_dim = 0 ∨ bcast_dim = 1)
    (hi : 0 < benchmark_state.range 1) (hb : 0 < benchmark_state.range 0) :
    ∃ t0 t1 g pattern out,
      (executions (NvFuserScheduler_Broadcast dataTypeSize benchmark_state
        fusion_executor_cache dtype bcast_dim).1).head? = some [t0, t1] ∧
      (∀ inputs ∈ executions (NvFuserScheduler_Broadcast dataTypeSize benchmark_state
        fusion_executor_cache dtype bcast_dim).1, inputs = [t0, t1]) ∧
      setupBroadcast Fusion.fresh dtype bcast_dim = Except.ok g ∧
      g.broadcastPatterns = [pattern] ∧
      pattern[bcast_dim.toNat]? = some true ∧
      pattern[(1 - bcast_dim).toNat]? = some false ∧
      t0.sizes.length = 2 ∧
      t0.sizes[bcast_dim.toNat]? = some (benchmark_state.range 0) ∧
      t0.sizes[(1 - bcast_dim).toNat]? = some (benchmark_state.range 1) ∧
      t1.sizes = [benchmark_state.range 1] ∧
      g.outputSizes [t0.sizes, t1.sizes] = some [out] ∧
      out = t0.sizes ∧
      benchmark_state.range 1 * benchmark_state.range 0 * 2 + benchmark_state.range 1 =
        numel t0.sizes + numel t1.sizes + numel out ∧
      0 < numel t0.sizes ∧ 0 < numel t1.sizes ∧ 0 < numel out := by
  obtain ⟨k, hk⟩ := executions_of_run dataTypeSize benchmark_state fusion_executor_cache dtype
    bcast_dim
  obtain ⟨g, hg, hpat⟩ := setupBroadcast_pattern Fusion.fresh dtype bcast_dim hdim
  have hout := outputSizes_of_fitting_inputs dtype bcast_dim hdim (benchmark_state.range 0)
    (benchmark_state.range 1) g hg
  have hsizes : (inputT0 benchmark_state dtype bcast_dim).sizes =
      if bcast_dim ≠ 0 then [benchmark_state.range 1, benchmark_state.range 0]
      else [benchmark_state.range 0, benchmark_state.range 1] := by
    unfold inputT0 randn
    split <;> rfl
  have hmul : 0 < benchmark_state.range 1 * benchmark_state.range 0 := mul_pos hi hb
  refine ⟨inputT0 benchmark_state dtype bcast_dim, inputT1 benchmark_state dtype, g,
    [decide (bcast_dim = 0), decide (bcast_dim = 1)],
    (inputT0 benchmark_state dtype bcast_dim).sizes, ?_, ?_, hg, ?_, ?_, ?_, ?_, ?_, ?_, rfl,
    ?_, rfl, ?_, ?_, ?_, ?_⟩
  · rw [hk]
    rfl
  · intro inputs hin
    rw [hk] at hin
    exact List.eq_of_mem_replicate hin
  · simpa [Fusion.broadcastPatterns, Fusion.fresh] using hpat
  · rcases hdim with h | h <;> subst h <;> simp
  · rcases hdim with h | h <;> subst h <;> simp
  · rw [hsizes]
    split <;> rfl
  · rw [hsizes]
    rcases hdim with h | h <;> subst h <;> simp
  · rw [hsizes]
    rcases hdim with h | h <;> subst h <;> simp
  · rw [hsizes]
    exact hout
  · rw [hsizes]
    rcases hdim with h | h <;> subst h <;> simp [numel, inputT1, randn] <;> ring
  · rw [hsizes]
    rcases hdim with h | h <;> subst h <;> simp [numel] <;> nlinarith
  · simpa [numel, inputT1, randn] using hi
  · rw [hsizes]
    rcases hdim with h | h <;> subst h <;> simp [numel] <;> nlinarith

end Broadcast

/-! ## The theorems at concrete inputs -/

namespace SparseBlas

/-- C2 at the type `other 0` with type name "i". -/
theorem unmapped_type_asserts_witness :
    ScalarType.other 0 ≠ ScalarType.float ∧ ScalarType.other 0 ≠ ScalarType.double ∧
    ScalarType.other 0 ≠ ScalarType.complexFloat ∧
    ScalarType.other 0 ≠ ScalarType.complexDouble ∧
    (create_csr (fun _ => "i") (ScalarType.other 0) ⟨1, 0, 3, 3, 2, 3, 4, 5⟩ =
      (Except.error (Failure.internalAssert
        ("at::mkl::sparse::create_csr: not implemented for " ++ "i")) :
        Except Failure (Resolved Int)) ∧
    mv (fun _ => "i") (ScalarType.other 0) (⟨10, 1, 7, ⟨20, 40, 50⟩, 2, 0, 3⟩ : MvArgs Int) =
      Except.error (Failure.internalAssert
        ("at::mkl::sparse::mv: not implemented for " ++ "i")) ∧
    trsv (fun _ => "i") (ScalarType.other 0) (⟨10, 1, 7, ⟨20, 40, 50⟩, 2, 3⟩ : TrsvArgs Int) =
      Except.error (Failure.internalAssert
        ("at::mkl::sparse::trsv: not implemented for " ++ "i")) ∧
    trsm (fun _ => "i") (ScalarType.other 0)
        (⟨10, 1, 7, ⟨20, 40, 50⟩, 101, 2, 4, 3, 3, 3⟩ : TrsmArgs Int) =
      Except.error (Failure.internalAssert
        ("at::mkl::sparse::trsm: not implemented for " ++ "i"))) :=
  ⟨by decide, by decide, by decide, by decide,
    unmapped_type_asserts (fun _ => "i") (ScalarType.other 0) (by decide) (by decide)
      (by decide) (by decide) ⟨1, 0, 3, 3, 2, 3, 4, 5⟩ ⟨10, 1, 7, ⟨20, 40, 50⟩, 2, 0, 3⟩
      ⟨10, 1, 7, ⟨20, 40, 50⟩, 2, 3⟩ ⟨10, 1, 7, ⟨20, 40, 50⟩, 101, 2, 4, 3, 3, 3⟩⟩

end SparseBlas

namespace Broadcast

/-- C4 at `dtype = Half`, `bcast_axis = 1`, on a fresh fusion. -/
theorem broadcast_pattern_flags_axis_witness :
    ((1 : Int) = 0 ∨ (1 : Int) = 1) ∧
    ∃ g pattern, setupBroadcast Fusion.fresh DataType.Half 1 = Except.ok g ∧
      g.broadcastPatterns = Fusion.fresh.broadcastPatterns ++ [pattern] ∧
      pattern.length = 2 ∧
      pattern[(1 : Int).toNat]? = some true ∧
      pattern[(1 - (1 : Int)).toNat]? = some false ∧
      ((1 : Int) = 0 → pattern = [true, false]) ∧
      ((1 : Int) = 1 → pattern = [false, true]) ∧
      pattern.count true = 1 :=
  ⟨by decide, broadcast_pattern_flags_axis Fusion.fresh DataType.Half 1 (by decide)⟩

/-- C5 at `bcast_axis = 0`. -/
theorem half_path_casts_around_add_witness :
    ((0 : Int) = 0 ∨ (0 : Int) = 1) ∧
    ∃ gHalf tv0 tv1 tv0f tv1f tv2 tv3 out pattern,
      setupBroadcast Fusion.fresh DataType.Half 0 = Except.ok gHalf ∧
      gHalf.stmts =
        [Stmt.makeContigTensor tv0, Stmt.makeContigTensor tv1,
         Stmt.addInput tv0, Stmt.addInput tv1,
         Stmt.castOp DataType.Float tv0 tv0f, Stmt.castOp DataType.Float tv1 tv1f,
         Stmt.broadcast tv1f pattern tv2, Stmt.add tv0f tv2 tv3,
         Stmt.castOp DataType.Half tv3 out, Stmt.addOutput out] ∧
      tv0.dtype = DataType.Half ∧ tv1.dtype = DataType.Half ∧
      tv0f.dtype = DataType.Float ∧ tv1f.dtype = DataType.Float ∧
      tv3.dtype = DataType.Float ∧ out.dtype = DataType.Half ∧ out.ndims = 2 ∧
      ∀ dtype, dtype ≠ DataType.Half →
        ∃ g o, setupBroadcast Fusion.fresh dtype 0 = Except.ok g ∧
          g.casts = [] ∧ g.outputs = [o] ∧ o.ndims = out.ndims ∧
          ∀ inputs, gHalf.outputSizes inputs = g.outputSizes inputs :=
  ⟨by decide, half_path_casts_around_add 0 (by decide)⟩

/-- C8 at `dtype = Half`, `bcast_axis = 1`. -/
theorem setupBroadcast_is_deterministic_witness :
    ((1 : Int) = 0 ∨ (1 : Int) = 1) ∧
    ∃ g tv0 tv1 out, setupBroadcast Fusion.fresh DataType.Half 1 = Except.ok g ∧
      (∀ fusion1 fusion2 : Fusion, fusion1.stmts = [] → fusion2.stmts = [] →
        setupBroadcast fusion1 DataType.Half 1 = Except.ok g ∧
        setupBroadcast fusion2 DataType.Half 1 = Except.ok g) ∧
      g.inputs = [tv0, tv1] ∧ tv0.ndims = 2 ∧ tv1.ndims = 1 ∧
      tv0.dtype = DataType.Half ∧ tv1.dtype = DataType.Half ∧
      g.outputs = [out] ∧ out.ndims = 2 ∧ out.dtype = DataType.Half ∧
      (DataType.Half = DataType.Half →
        g.exprs.getLast? = some (Stmt.castOp DataType.Half
          ⟨5, 2, DataType.Float⟩ out)) :=
  ⟨by decide, setupBroadcast_is_deterministic DataType.Half 1 (by decide)⟩

end Broadcast

namespace Broadcast

/-- C9 on the sample case, with incomplete and with complete executor info. -/
theorem failed_assertion_stops_the_case_witness :
    ((sampleCacheIncomplete.compile_log.pointwise_params = none ∨
        sampleCacheIncomplete.compile_log.launch_constraints = none) ∧
      labelsSet (NvFuserScheduler_Broadcast (fun _ => 4) sampleState sampleCacheIncomplete
        DataType.Float 1).1 = [] ∧
      bytesReported (NvFuserScheduler_Broadcast (fun _ => 4) sampleState
        sampleCacheIncomplete DataType.Float 1).1 = []) ∧
    ((sampleCache.compile_log.pointwise_params = some ⟨"p"⟩ ∧
        sampleCache.compile_log.launch_constraints = some ⟨"l"⟩) ∧
      labelsSet (NvFuserScheduler_Broadcast (fun _ => 4) sampleState sampleCache
        DataType.Float 1).1 = ["p" ++ "l"]) :=
  ⟨⟨Or.inr rfl,
     ((failed_assertion_stops_the_case (fun _ => 4) sampleState sampleCacheIncomplete
       DataType.Float 1).1 (Or.inr rfl)).2.2.1,
     ((failed_assertion_stops_the_case (fun _ => 4) sampleState sampleCacheIncomplete
       DataType.Float 1).1 (Or.inr rfl)).2.2.2.2.2⟩,
   ⟨⟨rfl, rfl⟩,
     ((failed_assertion_stops_the_case (fun _ => 4) sampleState sampleCache
       DataType.Float 1).2 ⟨"p"⟩ ⟨"l"⟩ rfl rfl).2⟩⟩

/-- C10 on the sample case, with `bcast_dim = 1`. -/
theorem inputs_fit_the_graph_witness :
    (((1 : Int) = 0 ∨ (1 : Int) = 1) ∧ 0 < sampleState.range 1 ∧ 0 < sampleState.range 0) ∧
    ∃ t0 t1 g pattern out,
      (executions (NvFuserScheduler_Broadcast (fun _ => 4) sampleState sampleCache
        DataType.Float 1).1).head? = some [t0, t1] ∧
      (∀ inputs ∈ executions (NvFuserScheduler_Broadcast (fun _ => 4) sampleState
        sampleCache DataType.Float 1).1, inputs = [t0, t1]) ∧
      setupBroadcast Fusion.fresh DataType.Float 1 = Except.ok g ∧
      g.broadcastPatterns = [pattern] ∧
      pattern[(1 : Int).toNat]? = some true ∧
      pattern[(1 - (1 : Int)).toNat]? = some false ∧
      t0.sizes.length = 2 ∧
      t0.sizes[(1 : Int).toNat]? = some (sampleState.range 0) ∧
      t0.sizes[(1 - (1 : Int)).toNat]? = some (sampleState.range 1) ∧
      t1.sizes = [sampleState.range 1] ∧
      g.outputSizes [t0.sizes, t1.sizes] = some [out] ∧
      out = t0.sizes ∧
      sampleState.range 1 * sampleState.range 0 * 2 + sampleState.range 1 =
        numel t0.sizes + numel t1.sizes + numel out ∧
      0 < numel t0.sizes ∧ 0 < numel t1.sizes ∧ 0 < numel out :=
  ⟨⟨by decide, by decide, by decide⟩,
   inputs_fit_the_graph (fun _ => 4) sampleState sampleCache DataType.Float 1 (by decide)
     (by decide) (by decide)⟩

end Broadcast
